import Mathlib

/-!
Verification of the `venv_manager` repository (`setupvenv.py`) against its
natural-language specification.

The Python program is shallowly embedded: the filesystem, the outcomes of
external subprocesses (`venv.create`, `pip install`, `pip freeze`,
`python --version`) and the interactive confirmation input are explicit
parameters of a `World`; every embedded function returns its result
together with the updated `World` and a `Trace` recording the lines it
printed and the subprocess invocations it performed.  Machine-level
details that no claim depends on (file permission bits, timestamps beyond
an abstract `statCtime` string, floating-point size formatting, stdout
versus stderr) are modelled coarsely and noted at the definition concerned.

String primitives (`strip`, `split`, `startswith`, `lower`, substring
test) are given explicit structurally-recursive definitions over the
character list so that every function of the model evaluates inside the
kernel.  Python `set` values are represented as duplicate-free
`List String` values built by `setInsert`; set equality is membership
equality (`setEqStr`).
-/

namespace VenvSpec

/-! ## String primitives -/

def charsPrefixOf : List Char → List Char → Bool
  | [], _ => true
  | _ :: _, [] => false
  | a :: as, b :: bs => a == b && charsPrefixOf as bs

def charsInfixOf (needle : List Char) : List Char → Bool
  | [] => charsPrefixOf needle []
  | b :: bs => charsPrefixOf needle (b :: bs) || charsInfixOf needle bs

/-- Python's `startswith`. -/
def pyStartsWith (s pat : String) : Bool :=
  charsPrefixOf pat.data s.data

/-- Substring test, Python's `needle in haystack` on strings. -/
def strContains (hay needle : String) : Bool :=
  charsInfixOf needle.data hay.data

def mySplitAux (sep : Char) : List Char → List Char → List (List Char)
  | [], acc => [acc.reverse]
  | c :: cs, acc =>
    if c == sep then acc.reverse :: mySplitAux sep cs []
    else mySplitAux sep cs (c :: acc)

/-- Python's `str.split(sep)` for a one-character separator (also the
semantics of splitting a file into lines). -/
def pySplit (s : String) (sep : Char) : List String :=
  (mySplitAux sep s.data []).map List.asString

/-- Python's `str.strip()`: drop leading and trailing whitespace. -/
def pyStrip (s : String) : String :=
  (((s.data.dropWhile Char.isWhitespace).reverse.dropWhile
      Char.isWhitespace).reverse).asString

/-- Python's `str.lower()` (ASCII, which is all the program compares). -/
def pyLower (s : String) : String :=
  (s.data.map Char.toLower).asString

/-- Lexicographic comparison by code point, Python's string `<=`. -/
def charsLe : List Char → List Char → Bool
  | [], _ => true
  | _ :: _, [] => false
  | a :: as, b :: bs => a < b || (a == b && charsLe as bs)

def strLe (a b : String) : Bool :=
  charsLe a.data b.data

def myJoin (sep : String) : List String → String
  | [] => ""
  | [x] => x
  | x :: y :: xs => x ++ sep ++ myJoin sep (y :: xs)

def insertSorted (x : String) : List String → List String
  | [] => [x]
  | y :: ys => if strLe x y then x :: y :: ys else y :: insertSorted x ys

/-- `sorted(...)` on a list of strings (insertion sort; Python sorts
strings by code point, as `strLe` does). -/
def sortStrings (l : List String) : List String :=
  l.foldr insertSorted []

/-! ## Python sets of strings -/

/-- Adding an element to a Python set: a no-op when already present. -/
def setInsert (x : String) (l : List String) : List String :=
  if l.contains x then l else x :: l

/-- The set of the elements of a list (`set(l)` / repeated `add`). -/
def setOfList (l : List String) : List String :=
  l.foldr setInsert []

/-- Python set equality: same members. -/
def setEqStr (a b : List String) : Bool :=
  a.all (fun x => b.contains x) && b.all (fun x => a.contains x)

/-! ## Traces and the world -/

/-- A subprocess invocation performed by the tool (`subprocess.run` /
`venv.create` call sites in `setupvenv.py`). -/
inductive SubprocCall where
  | pipUpgrade (pipExe : String)
  | pipInstallReq (pipExe : String) (reqFile : String)
  | pipFreeze (pipExe : String)
  | venvCreate (path : String)
  | pythonVersion (exe : String)
deriving DecidableEq, Repr

/-- Observable behaviour of a run: printed lines (the program prints
everything with `print`; the stdout/stderr distinction is not modelled)
and the subprocess calls made, in order. -/
structure Trace where
  output : List String
  calls : List SubprocCall
deriving DecidableEq, Repr

def Trace.nil : Trace := ⟨[], []⟩

def Trace.app (t u : Trace) : Trace := ⟨t.output ++ u.output, t.calls ++ u.calls⟩

def Trace.lines (ls : List String) : Trace := ⟨ls, []⟩

/-- The state the program runs against: a flat filesystem (a set of
directory paths and a path-keyed list of file contents) plus oracles fixing
the outcome of each kind of external subprocess.  `statCtime` abstracts the
ctime string displayed for directories. -/
structure World where
  dirs : List String
  files : List (String × String)
  statCtime : String
  venvCreateOk : Bool
  pipUpgradeOk : Bool
  pipInstallOk : Bool
  freezeResult : Option String
  pythonVersionResult : Option String
deriving DecidableEq, Repr

def fileContent (w : World) (p : String) : Option String :=
  (w.files.find? (fun kv => kv.1 == p)).map (fun kv => kv.2)

def fileExists (w : World) (p : String) : Bool :=
  (fileContent w p).isSome

def dirExists (w : World) (p : String) : Bool :=
  w.dirs.contains p

/-- `Path.exists()`: true for files and directories alike. -/
def pathExists (w : World) (p : String) : Bool :=
  dirExists w p || fileExists w p

/-- `open(p, "w")` followed by a write: replaces any previous content.
Write failures (`IOError`) are not modelled; the source only logs them. -/
def writeFile (w : World) (p c : String) : World :=
  { w with files := (p, c) :: w.files.filter (fun kv => kv.1 != p) }

/-- `Path.unlink()` on a file. -/
def removeFile (w : World) (p : String) : World :=
  { w with files := w.files.filter (fun kv => kv.1 != p) }

/-- `p.mkdir(parents=True, exist_ok=True)`: ensures `p` is a directory
(intermediate ancestors are not tracked separately by any claim). -/
def mkdirParents (w : World) (p : String) : World :=
  if dirExists w p then w else { w with dirs := p :: w.dirs }

/-- Whether path `q` equals `root` or lies strictly below it. -/
def pathUnder (root q : String) : Bool :=
  q == root || pyStartsWith q (root ++ "/")

/-- `shutil.rmtree(p)`: removes the directory and everything below it. -/
def rmtree (w : World) (p : String) : World :=
  { w with
      dirs := w.dirs.filter (fun d => !(pathUnder p d)),
      files := w.files.filter (fun kv => !(pathUnder p kv.1)) }

/-- Components of a POSIX path as `pathlib` normalizes them: empty
components (doubled slashes, trailing slash) and `.` components vanish. -/
def pathParts (p : String) : List String :=
  (pySplit p '/').filter (fun c => !(c == "") && !(c == "."))

def pathIsAbs (p : String) : Bool :=
  pyStartsWith p "/"

/-- `Path(a) == Path(b)`: pathlib compares the normalized form. -/
def pathEq (a b : String) : Bool :=
  pathIsAbs a == pathIsAbs b && pathParts a == pathParts b

/-- `Path(p).name`: the final path component. -/
def baseName (p : String) : String :=
  ((pySplit p '/').getLast?).getD ""

/-- Parent path of `p` (everything before the final `/`). -/
def parentDir (p : String) : String :=
  myJoin "/" ((pySplit p '/').dropLast)

/-- The immediate subdirectories of `base` present in the world
(`base_dir.iterdir()` filtered by `item.is_dir()`). -/
def childDirs (w : World) (base : String) : List String :=
  w.dirs.filter (fun d => parentDir d == base)

/-! ## The `VirtualEnvironmentSetup` class -/

/-- The `VirtualEnvironmentSetup` object of `setupvenv.py`: the constructor
arguments plus the working directory (`Path.cwd()` is fixed for a run). -/
structure VirtualEnvironmentSetup where
  venv_name : String
  base_dir : String
  requirements_file : String
  cwd : String
deriving DecidableEq, Repr

namespace VirtualEnvironmentSetup

/-- `self.venv_path = base_dir / venv_name`. -/
def venv_path (s : VirtualEnvironmentSetup) : String :=
  s.base_dir ++ "/" ++ s.venv_name

/-- `self.venvlocation_file = Path.cwd() / ".venvlocation"`. -/
def venvlocation_file (s : VirtualEnvironmentSetup) : String :=
  s.cwd ++ "/.venvlocation"

/-- `self.venv_path / "bin" / "pip"`. -/
def pip_executable (s : VirtualEnvironmentSetup) : String :=
  s.venv_path ++ "/bin/pip"

/-- `self.venv_path / "bin" / "python"`. -/
def python_executable (s : VirtualEnvironmentSetup) : String :=
  s.venv_path ++ "/bin/python"

/-- `self.venv_path / "bin" / "activate"`, the activation marker. -/
def activate_script (s : VirtualEnvironmentSetup) : String :=
  s.venv_path ++ "/bin/activate"

/-- `Path.cwd() / "venv_shell"`. -/
def venv_shell_file (s : VirtualEnvironmentSetup) : String :=
  s.cwd ++ "/venv_shell"

/-- `create_venv_location_file`: writes the venv path, newline-terminated. -/
def create_venv_location_file (s : VirtualEnvironmentSetup) (w : World) :
    World × Trace :=
  (writeFile w s.venvlocation_file (s.venv_path ++ "\n"),
   Trace.lines ["Created " ++ s.venvlocation_file])

/-- The lines of a `pip freeze` stdout, as `get_installed_packages` splits
them: empty output gives no lines. -/
def freezeLines (out : String) : List String :=
  if pyStrip out == "" then [] else pySplit (pyStrip out) '\n'

/-- `get_installed_packages`: runs `pip freeze`; a `CalledProcessError`
(`freezeResult = none`) degrades to the empty set with a logged error. -/
def get_installed_packages (s : VirtualEnvironmentSetup) (w : World) :
    List String × Trace :=
  match w.freezeResult with
  | some out =>
      (setOfList (freezeLines out), ⟨[], [SubprocCall.pipFreeze s.pip_executable]⟩)
  | none =>
      ([], ⟨["Error getting installed packages"],
            [SubprocCall.pipFreeze s.pip_executable]⟩)

/-- The lines of a manifest that survive `get_required_packages` filtering:
stripped, non-blank, not starting with `#`. -/
def requirementLines (content : String) : List String :=
  ((pySplit content '\n').map pyStrip).filter
    (fun l => !(l == "") && !(pyStartsWith l "#"))

/-- `get_required_packages`: a missing file gives the empty set (logged,
not an error); otherwise the set of stripped non-comment non-blank lines. -/
def get_required_packages (s : VirtualEnvironmentSetup) (w : World) :
    List String × Trace :=
  match fileContent w s.requirements_file with
  | none =>
      ([], Trace.lines ["Requirements file " ++ s.requirements_file ++ " not found."])
  | some content => (setOfList (requirementLines content), Trace.nil)

/-- `install_packages`: skips (success) when the manifest file does not
exist; otherwise upgrades pip and installs `-r manifest`, failing when
either subprocess fails. -/
def install_packages (s : VirtualEnvironmentSetup) (w : World) :
    Bool × World × Trace :=
  if fileExists w s.requirements_file = false then
    (true, w,
     Trace.lines ["No requirements.txt found at " ++ s.requirements_file ++
       ", skipping package installation."])
  else
    let t1 : Trace := ⟨["Upgrading pip..."], [SubprocCall.pipUpgrade s.pip_executable]⟩
    if w.pipUpgradeOk = false then
      (false, w, t1.app (Trace.lines ["Error installing packages"]))
    else
      let t2 : Trace :=
        ⟨["Installing packages from " ++ s.requirements_file ++ "..."],
         [SubprocCall.pipInstallReq s.pip_executable s.requirements_file]⟩
      if w.pipInstallOk = false then
        (false, w, (t1.app t2).app (Trace.lines ["Error installing packages"]))
      else
        (true, w, t1.app t2)

end VirtualEnvironmentSetup

/-- `venv.create(path, with_pip=True)`: on success materializes the
environment directory with `bin/activate`, `bin/pip` and `bin/python`;
on failure (oracle `venvCreateOk = false`) raises, leaving the world as
it was.  External library behaviour, modelled here. -/
def venvCreateAt (w : World) (p : String) : Bool × World × Trace :=
  if w.venvCreateOk then
    (true,
     { w with
        dirs := p :: (p ++ "/bin") :: w.dirs,
        files := (p ++ "/bin/activate", "venv activation file for " ++ p)
              :: (p ++ "/bin/pip", "pip executable")
              :: (p ++ "/bin/python", "python executable")
              :: w.files },
     ⟨[], [SubprocCall.venvCreate p]⟩)
  else
    (false, w, ⟨[], [SubprocCall.venvCreate p]⟩)

namespace VirtualEnvironmentSetup

/-- `create_virtual_environment`: ensure the base directory, create the
venv, write the location marker, then install packages; any creation
failure is caught and reported as `False`. -/
def create_virtual_environment (s : VirtualEnvironmentSetup) (w : World) :
    Bool × World × Trace :=
  let w1 := mkdirParents w s.base_dir
  let t1 := Trace.lines
    ["Created base directory: " ++ s.base_dir,
     "Creating virtual environment in " ++ s.venv_path]
  let r := venvCreateAt w1 s.venv_path
  if r.1 = false then
    (false, r.2.1,
     (t1.app r.2.2).app (Trace.lines ["Error creating virtual environment"]))
  else
    let l := s.create_venv_location_file r.2.1
    let i := s.install_packages l.1
    (i.1, i.2.1, ((t1.app r.2.2).app l.2).app i.2.2)

/-- `update_virtual_environment`: (re)create the location marker if
missing, then compare installed against required packages; empty required
set short-circuits to success, a set mismatch reinstalls. -/
def update_virtual_environment (s : VirtualEnvironmentSetup) (w : World) :
    Bool × World × Trace :=
  let t0 := Trace.lines ["Virtual environment already exists, checking packages..."]
  let step1 : World × Trace :=
    if fileExists w s.venvlocation_file = false then s.create_venv_location_file w
    else (w, Trace.nil)
  let w1 := step1.1
  let inst := s.get_installed_packages w1
  let req := s.get_required_packages w1
  let tPre := ((t0.app step1.2).app inst.2).app req.2
  if req.1 = [] then
    (true, w1, tPre.app (Trace.lines ["No requirements.txt found or it\x27s empty."]))
  else if setEqStr inst.1 req.1 = false then
    let i := s.install_packages w1
    (i.1, i.2.1,
     (tPre.app (Trace.lines
       ["Package requirements have changed, installing/updating packages..."])).app i.2.2)
  else
    (true, w1, tPre.app (Trace.lines ["All required packages are already installed."]))

/-- The text `create_activation_script` writes to `venv_shell`
(the f-string template of the source, concatenated). -/
def activation_script_content (s : VirtualEnvironmentSetup) : String :=
  "#!/bin/bash\n" ++
  "# Automatically generated virtual environment activation script\n" ++
  "# This script opens a NEW shell with the virtual environment activated\n" ++
  "echo \"Starting new shell with virtual environment \x27" ++ s.venv_name ++
    "\x27 activated...\"\n" ++
  "echo \"Type \x27exit\x27 to return to your original shell.\"\n" ++
  "echo \"Virtual environment path: " ++ s.venv_path ++ "\"\n" ++
  "echo \"\"\n" ++
  "cd \"" ++ s.cwd ++ "\"\n" ++
  "source " ++ s.venv_path ++ "/bin/activate\n" ++
  "exec \"$SHELL\"\n"

/-- `create_activation_script`: (re)writes `venv_shell` (the 0755 chmod is
a permission bit outside the model). -/
def create_activation_script (s : VirtualEnvironmentSetup) (w : World) :
    World × Trace :=
  (writeFile w s.venv_shell_file s.activation_script_content,
   Trace.lines
     ["Created activation script: " ++ s.venv_shell_file,
      "Run \x27./venv_shell\x27 to activate the virtual environment in a NEW shell",
      "(Type \x27exit\x27 in the new shell to return to your current shell)"])

/-- `setup`: dispatch on the activation marker to update or create, then
on success print the completion banner and regenerate the activation
script.  `check_venv_module` (availability of the stdlib `venv` module)
is true in the modelled runtime. -/
def setup (s : VirtualEnvironmentSetup) (w : World) : Bool × World × Trace :=
  let branch : Bool × World × Trace :=
    if fileExists w s.activate_script then s.update_virtual_environment w
    else s.create_virtual_environment w
  if branch.1 then
    let doneLines := Trace.lines
      ["Virtual Environment setup completed!",
       "Virtual environment location: " ++ s.venv_path,
       "To activate: source " ++ s.activate_script,
       "To deactivate: deactivate"]
    let fin := s.create_activation_script branch.2.1
    (true, fin.1, (branch.2.2.app doneLines).app fin.2)
  else
    branch

end VirtualEnvironmentSetup

/-! ## Environment metadata -/

/-- The dict built by `get_venv_info` (fields initialised to `None` /
`0` / `[]`, then filled in). -/
structure VenvInfo where
  name : String
  path : String
  created : Option String
  size : Option String
  python_version : Option String
  packages_count : Nat
  packages : List String
deriving DecidableEq, Repr

/-- How an f-string renders an optional value stored in the info dict:
`None` prints as `"None"`. -/
def optRender (o : Option String) : String :=
  o.getD "None"

/-- `info.get(key, 'Unknown')` on a possibly-empty info dict:
the empty dict (`none`) yields the default. -/
def getStr (o : Option VenvInfo) (f : VenvInfo → Option String) : String :=
  match o with
  | some i => optRender (f i)
  | none => "Unknown"

def getName (o : Option VenvInfo) : String :=
  match o with | some i => i.name | none => "Unknown"

def getPath (o : Option VenvInfo) : String :=
  match o with | some i => i.path | none => "Unknown"

def getCount (o : Option VenvInfo) : Nat :=
  match o with | some i => i.packages_count | none => 0

def getPackages (o : Option VenvInfo) : List String :=
  match o with | some i => i.packages | none => []

/-- Total size in bytes of the files below `p`
(`sum(f.stat().st_size for f in rglob("*") if f.is_file())`; a file's
st_size is modelled as its content length). -/
def sizeUnder (w : World) (p : String) : Nat :=
  (w.files.filter (fun kv => pathUnder p kv.1)).foldl
    (fun acc kv => acc + kv.2.length) 0

/-- `_format_size`: display-only approximation of the source's
floating-point one-decimal formatting (integer division here; no claim
reads this string). -/
def format_size (n : Nat) : String :=
  if n < 1024 then toString n ++ " B"
  else if n < 1024 * 1024 then toString (n / 1024) ++ " KB"
  else if n < 1024 * 1024 * 1024 then toString (n / (1024 * 1024)) ++ " MB"
  else if n < 1024 * 1024 * 1024 * 1024 then
    toString (n / (1024 * 1024 * 1024)) ++ " GB"
  else toString (n / (1024 * 1024 * 1024 * 1024)) ++ " TB"

namespace VirtualEnvironmentSetup

/-- `get_venv_info`: `none` (the empty dict) when the venv path does not
exist; otherwise ctime, size, python version (queried only when the
python binary exists) and the sorted installed-package list. -/
def get_venv_info (s : VirtualEnvironmentSetup) (w : World) :
    Option VenvInfo × Trace :=
  if pathExists w s.venv_path = false then (none, Trace.nil)
  else
    let pv : Option String × Trace :=
      if fileExists w s.python_executable then
        (w.pythonVersionResult, ⟨[], [SubprocCall.pythonVersion s.python_executable]⟩)
      else (none, Trace.nil)
    let inst := s.get_installed_packages w
    (some
      { name := s.venv_name
        path := s.venv_path
        created := some w.statCtime
        size := some (format_size (sizeUnder w s.venv_path))
        python_version := pv.1
        packages_count := inst.1.length
        packages := sortStrings inst.1 },
     pv.2.app inst.2)

/-- `remove_environment`: refuse when the venv path does not exist; without
`force` show the metadata snapshot and require a `y`/`yes` confirmation
(anything else cancels, returning `False`); on confirmation remove the
tree, then conditionally clean up `.venvlocation` (stored path equal as a
path) and `venv_shell` (content contains the venv path). -/
def remove_environment (s : VirtualEnvironmentSetup) (force : Bool)
    (response : String) (w : World) : Bool × World × Trace :=
  if pathExists w s.venv_path = false then
    (false, w,
     Trace.lines ["Virtual environment \x27" ++ s.venv_name ++
       "\x27 does not exist at " ++ s.venv_path])
  else
    let tConfirm : Trace :=
      if force then Trace.nil
      else
        let gi := s.get_venv_info w
        gi.2.app (Trace.lines
          ["Environment to be deleted:",
           "  Name: " ++ getName gi.1,
           "  Path: " ++ getPath gi.1,
           "  Size: " ++ getStr gi.1 (fun i => i.size),
           "  Created: " ++ getStr gi.1 (fun i => i.created),
           "  Packages: " ++ toString (getCount gi.1)])
    if force = false ∧ pyLower response ≠ "y" ∧ pyLower response ≠ "yes" then
      (false, w, tConfirm.app (Trace.lines ["Deletion cancelled."]))
    else
      let w1 := rmtree w s.venv_path
      let t1 := tConfirm.app (Trace.lines
        ["Successfully removed virtual environment \x27" ++ s.venv_name ++ "\x27"])
      let step2 : World × Trace :=
        match fileContent w1 s.venvlocation_file with
        | some stored =>
            if pathEq (pyStrip stored) s.venv_path then
              (removeFile w1 s.venvlocation_file,
               Trace.lines ["Removed .venvlocation file"])
            else (w1, Trace.nil)
        | none => (w1, Trace.nil)
      let w2 := step2.1
      let step3 : World × Trace :=
        match fileContent w2 s.venv_shell_file with
        | some content =>
            if strContains content s.venv_path then
              (removeFile w2 s.venv_shell_file,
               Trace.lines ["Removed venv_shell activation script"])
            else (w2, Trace.nil)
        | none => (w2, Trace.nil)
      (true, step3.1, (t1.app step2.2).app step3.2)

end VirtualEnvironmentSetup

/-! ## Listing -/

/-- A subdirectory qualifies as a virtual environment iff it has a
POSIX or Windows activation file. -/
def looksLikeVenv (w : World) (d : String) : Bool :=
  pathExists w (d ++ "/bin/activate") || pathExists w (d ++ "/Scripts/activate.bat")

/-- The lines printed for one environment in the listing loop (the
`dummy_setup` construction of the source; column padding of the
non-detailed line is not reproduced). -/
def listEntryTrace (detailed : Bool) (cwd base_dir : String) (w : World)
    (d : String) : Trace :=
  let dummy : VirtualEnvironmentSetup :=
    { venv_name := baseName d, base_dir := base_dir,
      requirements_file := cwd ++ "/requirements.txt", cwd := cwd }
  let gi := dummy.get_venv_info w
  if detailed then
    gi.2.app (Trace.lines
      (["Name: " ++ getName gi.1,
        "Path: " ++ getPath gi.1,
        "Created: " ++ getStr gi.1 (fun i => i.created),
        "Size: " ++ getStr gi.1 (fun i => i.size),
        "Python: " ++ getStr gi.1 (fun i => i.python_version),
        "Packages: " ++ toString (getCount gi.1)] ++
       (if getPackages gi.1 ≠ [] then
          ["Installed packages:"] ++
          ((getPackages gi.1).take 10).map (fun pkg => "  - " ++ pkg) ++
          (if (getPackages gi.1).length > 10 then
            ["  ... and " ++ toString ((getPackages gi.1).length - 10) ++ " more"]
           else [])
        else []) ++
       [(List.replicate 40 (Char.ofNat 45)).asString]))
  else
    gi.2.app (Trace.lines
      ["  " ++ getName gi.1 ++ " | " ++ getStr gi.1 (fun i => i.size) ++ " | " ++
       getStr gi.1 (fun i => i.created) ++ " | " ++
       toString (getCount gi.1) ++ " packages"])

/-- The static method `list_environments`.  A missing base path prints a
notice and returns; a base path that exists but is not a directory makes
`iterdir()` raise (`Except.error`), which only the caller's handler sees.
Zero qualifying subdirectories prints the "No virtual environments found"
notice; otherwise the sorted entries are printed, followed (non-detailed
only) by the `Found N` summary. -/
def list_environments (base_dir : String) (detailed : Bool) (cwd : String)
    (w : World) : Except String Trace :=
  if pathExists w base_dir = false then
    Except.ok (Trace.lines ["Base directory " ++ base_dir ++ " does not exist."])
  else if dirExists w base_dir = false then
    Except.error "NotADirectoryError"
  else
    let venv_dirs := sortStrings ((childDirs w base_dir).filter (looksLikeVenv w))
    if venv_dirs = [] then
      Except.ok (Trace.lines ["No virtual environments found in " ++ base_dir])
    else
      let header := Trace.lines
        ["Virtual environments in " ++ base_dir ++ ":",
         (List.replicate 60 (Char.ofNat 61)).asString]
      let body := venv_dirs.foldl
        (fun acc d => acc.app (listEntryTrace detailed cwd base_dir w d)) header
      if detailed = false then
        Except.ok (body.app (Trace.lines
          ["Found " ++ toString venv_dirs.length ++ " virtual environment(s)",
           "Use --detailed flag for more information"]))
      else
        Except.ok body

/-! ## Command surface -/

/-- The three recognized subcommand tokens, as listed in `main`. -/
def subcommandTokens : List String := ["list", "remove", "create"]

/-- `any(cmd in sys.argv for cmd in subcommands)`. -/
def hasSubcommandToken (argv : List String) : Bool :=
  subcommandTokens.any (fun cmd => argv.contains cmd)

inductive Mode where
  | legacy
  | subcommand
deriving DecidableEq, Repr

/-- The backward-compatibility dispatch of `main`: with no recognized
subcommand token anywhere in the raw argument list, reparse everything
under the legacy create-only schema. -/
def dispatchMode (argv : List String) : Mode :=
  if hasSubcommandToken argv then Mode.subcommand else Mode.legacy

/-- The namespace produced by the legacy argument schema. -/
structure LegacyArgs where
  name : Option String
  base_dir : Option String
  requirements : Option String
  verbose : Bool
  help : Bool
deriving DecidableEq, Repr

def legacyInit : LegacyArgs :=
  { name := none, base_dir := none, requirements := none,
    verbose := false, help := false }

/-- The legacy schema's value-taking options. -/
def isValueFlag (t : String) : Bool :=
  t == "--name" || t == "-n" || t == "--base-dir" || t == "-b" ||
  t == "--requirements" || t == "-r"

/-- The legacy schema's store-true options. -/
def isSwitchFlag (t : String) : Bool :=
  t == "--verbose" || t == "-v" || t == "--help" || t == "-h"

def setValueFlag (a : LegacyArgs) (t v : String) : LegacyArgs :=
  if t == "--name" || t == "-n" then { a with name := some v }
  else if t == "--base-dir" || t == "-b" then { a with base_dir := some v }
  else { a with requirements := some v }

def setSwitchFlag (a : LegacyArgs) (t : String) : LegacyArgs :=
  if t == "--verbose" || t == "-v" then { a with verbose := true }
  else { a with help := true }

/-- Model of `argparse.ArgumentParser.parse_known_args` on the legacy
schema: recognized switches set their flag; recognized value options
consume the next token (erroring, as argparse does, when it is missing or
itself looks like an option); every other token is collected into the
`unknown` list and ignored.  Argparse's `--opt=value` form and unambiguous
abbreviation are not modelled. -/
def parseKnownArgs : List String → LegacyArgs → Option (LegacyArgs × List String)
  | [], a => some (a, [])
  | t :: rest, a =>
    if isSwitchFlag t then parseKnownArgs rest (setSwitchFlag a t)
    else if isValueFlag t then
      match rest with
      | [] => none
      | v :: rest2 =>
          if pyStartsWith v "-" then none
          else parseKnownArgs rest2 (setValueFlag a t v)
    else
      match parseKnownArgs rest a with
      | some (a2, unk) => some (a2, t :: unk)
      | none => none

inductive Command where
  | create
  | list
  | remove
deriving DecidableEq, Repr

/-- The namespace `parse_arguments` hands to `main` (after argparse has
succeeded); option values that were not given are `none` / `false`. -/
structure Args where
  command : Command
  name : Option String
  base_dir : Option String
  requirements : Option String
  detailed : Bool
  force : Bool
  verbose : Bool
deriving DecidableEq, Repr

/-- Python's `x or default` on an optional string: `None` and the empty
string both fall back to the default. -/
def orDefault (o : Option String) (d : String) : String :=
  match o with
  | some v => if v == "" then d else v
  | none => d

/-- The `VirtualEnvironmentSetup` object `main` constructs on the `create`
branch. -/
def buildCreateSetup (args : Args) (home cwd : String) : VirtualEnvironmentSetup :=
  { venv_name := orDefault args.name (baseName cwd),
    base_dir := (args.base_dir).getD (home ++ "/virtual_environments"),
    requirements_file := (args.requirements).getD (cwd ++ "/requirements.txt"),
    cwd := cwd }

/-- `main` after argument parsing: dispatch on the subcommand, defaulting
the base directory to `<home>/virtual_environments`; `list` always returns
0 unless `list_environments` raises (then the top-level handler prints
`Unexpected error` and returns 1); `remove` and `create` map the boolean
result to the exit code. -/
def main (args : Args) (home cwd response : String) (w : World) :
    Nat × World × Trace :=
  let base_dir := (args.base_dir).getD (home ++ "/virtual_environments")
  match args.command with
  | Command.list =>
    match list_environments base_dir args.detailed cwd w with
    | Except.ok t => (0, w, t)
    | Except.error e => (1, w, Trace.lines ["Unexpected error: " ++ e])
  | Command.remove =>
    let venv_name := (args.name).getD ""
    if venv_name == "" then
      (1, w, Trace.lines
        ["Error: Virtual environment name is required for remove command"])
    else
      let s : VirtualEnvironmentSetup :=
        { venv_name := venv_name, base_dir := base_dir,
          requirements_file := cwd ++ "/requirements.txt", cwd := cwd }
      let r := s.remove_environment args.force response w
      (if r.1 then 0 else 1, r.2.1, r.2.2)
  | Command.create =>
    let s := buildCreateSetup args home cwd
    let verboseT : Trace :=
      if args.verbose then
        Trace.lines
          ["Command: create",
           "Virtual environment name: " ++ s.venv_name,
           "Base directory: " ++ s.base_dir,
           "Requirements file: " ++ s.requirements_file]
      else Trace.nil
    let r := s.setup w
    (if r.1 then 0 else 1, r.2.1, verboseT.app r.2.2)

/-- Predicate on subprocess calls: the two invocations `install_packages`
makes (`pip install -U pip` and `pip install -r manifest`). -/
def isInstallCall : SubprocCall → Bool
  | SubprocCall.pipUpgrade _ => true
  | SubprocCall.pipInstallReq _ _ => true
  | _ => false

/-- Whether a run's trace contains any package-install subprocess. -/
def installAttempted (t : Trace) : Bool :=
  t.calls.any isInstallCall

/-! ## Concrete scenarios used as witnesses and counterexamples -/

/-- A world whose base directory `/h/venvs` contains the environment
`proj` (activation marker present), with benign subprocess oracles. -/
def wRem : World :=
  { dirs := ["/h/venvs", "/h/venvs/proj"],
    files := [("/h/venvs/proj/bin/activate", "a")],
    statCtime := "2026-01-01", venvCreateOk := true, pipUpgradeOk := true,
    pipInstallOk := true, freezeResult := some "",
    pythonVersionResult := some "Python 3.11.0" }

/-- `remove --name proj --base-dir /h/venvs` without `--force`. -/
def argsRem : Args :=
  { command := Command.remove, name := some "proj",
    base_dir := some "/h/venvs", requirements := none, detailed := false,
    force := false, verbose := false }

/-- `list --base-dir /h/venvs` where the base directory exists and holds
no environments. -/
def argsC2 : Args :=
  { command := Command.list, name := none,
    base_dir := some "/h/venvs", requirements := none, detailed := false,
    force := false, verbose := false }

def wC2 : World :=
  { dirs := ["/h/venvs"], files := [], statCtime := "2026-01-01",
    venvCreateOk := true, pipUpgradeOk := true, pipInstallOk := true,
    freezeResult := some "", pythonVersionResult := some "Python 3.11.0" }

/-- A controller for environment `proj` under `/h/venvs`, manifest at
`/w/requirements.txt`, working directory `/w`. -/
def sC3 : VirtualEnvironmentSetup :=
  { venv_name := "proj", base_dir := "/h/venvs",
    requirements_file := "/w/requirements.txt", cwd := "/w" }

/-- The environment does not exist yet (create path) and the manifest file
exists but holds only a comment line and a blank line. -/
def wC3 : World :=
  { dirs := ["/h/venvs"], files := [("/w/requirements.txt", "#c\n\n")],
    statCtime := "2026-01-01", venvCreateOk := true, pipUpgradeOk := true,
    pipInstallOk := true, freezeResult := some "",
    pythonVersionResult := some "Python 3.11.0" }

/-- Update path for `sC3`: the marker exists and the manifest still holds
only a comment and a blank line. -/
def wC3u : World :=
  { dirs := ["/h/venvs", "/h/venvs/proj"],
    files := [("/h/venvs/proj/bin/activate", "a"),
              ("/w/requirements.txt", "#c\n\n")],
    statCtime := "2026-01-01", venvCreateOk := true, pipUpgradeOk := true,
    pipInstallOk := true, freezeResult := some "",
    pythonVersionResult := some "Python 3.11.0" }

def sC4 : VirtualEnvironmentSetup :=
  { venv_name := "proj", base_dir := "/h/venvs",
    requirements_file := "/w/requirements.txt", cwd := "/w" }

/-- A second environment `proj2`, whose path `/h/venvs/proj2` contains
`/h/venvs/proj` as a proper substring. -/
def sC4B : VirtualEnvironmentSetup :=
  { venv_name := "proj2", base_dir := "/h/venvs",
    requirements_file := "/w/requirements.txt", cwd := "/w" }

/-- `proj` exists; `venv_shell` and `.venvlocation` both reference the
OTHER environment `proj2`. -/
def wC4 : World :=
  { dirs := ["/h/venvs", "/h/venvs/proj"],
    files := [("/h/venvs/proj/bin/activate", "a"),
              ("/w/venv_shell", sC4B.activation_script_content),
              ("/w/.venvlocation", sC4B.venv_path ++ "\n")],
    statCtime := "2026-01-01", venvCreateOk := true, pipUpgradeOk := true,
    pipInstallOk := true, freezeResult := some "",
    pythonVersionResult := some "Python 3.11.0" }

def sC5 : VirtualEnvironmentSetup :=
  { venv_name := "proj", base_dir := "/h/venvs",
    requirements_file := "/w/requirements.txt", cwd := "/w" }

/-- Update path: the marker exists, the manifest requires `pkg==1.0` and
`pip freeze` reports exactly that. -/
def wC5 : World :=
  { dirs := ["/h/venvs", "/h/venvs/proj"],
    files := [("/h/venvs/proj/bin/activate", "a"),
              ("/w/.venvlocation", "/h/venvs/proj\n"),
              ("/w/requirements.txt", "pkg==1.0\n")],
    statCtime := "2026-01-01", venvCreateOk := true, pipUpgradeOk := true,
    pipInstallOk := true, freezeResult := some "pkg==1.0",
    pythonVersionResult := some "Python 3.11.0" }

def sC6 : VirtualEnvironmentSetup :=
  { venv_name := "proj", base_dir := "/h/venvs",
    requirements_file := "/w/requirements.txt", cwd := "/w" }

/-- Manifest holding only a comment line, an indented comment and blanks. -/
def wC6 : World :=
  { dirs := [], files := [("/w/requirements.txt", "# dev tools\n\n  #pin\n   \n")],
    statCtime := "2026-01-01", venvCreateOk := true, pipUpgradeOk := true,
    pipInstallOk := true, freezeResult := some "",
    pythonVersionResult := some "Python 3.11.0" }

/-- `remove --name ghost --base-dir /h/venvs --force` in a world where
`/h/venvs/ghost` does not exist. -/
def argsC7 : Args :=
  { command := Command.remove, name := some "ghost",
    base_dir := some "/h/venvs", requirements := none, detailed := false,
    force := true, verbose := false }

def sC9 : VirtualEnvironmentSetup :=
  { venv_name := "proj", base_dir := "/h/venvs",
    requirements_file := "/w/requirements.txt", cwd := "/w" }

/-- Create path with a real manifest but a failing `pip install` step. -/
def wC9 : World :=
  { dirs := [], files := [("/w/requirements.txt", "requests>=2.25.0\n")],
    statCtime := "2026-01-01", venvCreateOk := true, pipUpgradeOk := true,
    pipInstallOk := false, freezeResult := some "",
    pythonVersionResult := some "Python 3.11.0" }

/-- `create --name proj --base-dir /h/venvs --requirements
/w/requirements.txt` as parsed arguments. -/
def argsC9 : Args :=
  { command := Command.create, name := some "proj",
    base_dir := some "/h/venvs", requirements := some "/w/requirements.txt",
    detailed := false, force := false, verbose := false }

/-- `list --base-dir /w/requirements.txt`: the base path exists but is a
regular file. -/
def argsC10 : Args :=
  { command := Command.list, name := none,
    base_dir := some "/w/requirements.txt", requirements := none,
    detailed := false, force := false, verbose := false }

def wC10 : World :=
  { dirs := [], files := [("/w/requirements.txt", "requests\n")],
    statCtime := "2026-01-01", venvCreateOk := true, pipUpgradeOk := true,
    pipInstallOk := true, freezeResult := some "",
    pythonVersionResult := some "Python 3.11.0" }

/-- `list --base-dir /nope` in a world with no `/nope` at all. -/
def argsC10m : Args :=
  { command := Command.list, name := none,
    base_dir := some "/nope", requirements := none,
    detailed := false, force := false, verbose := false }

/-! ## General lemmas about the model -/

theorem str_data_inj {a b : String} (h : a.data = b.data) : a = b :=
  congrArg String.mk h

theorem str_data_append (a b : String) : (a ++ b).data = a.data ++ b.data := rfl

theorem str_append_assoc (a b c : String) : a ++ b ++ c = a ++ (b ++ c) :=
  str_data_inj (by simp [str_data_append])

theorem str_append_right_inj {a b : String} (cwd : String) (h : a ≠ b) :
    cwd ++ a ≠ cwd ++ b := by
  intro he
  exact h (str_data_inj (List.append_cancel_left (congrArg String.data he)))

theorem charsPrefixOf_append_self (xs ys : List Char) :
    charsPrefixOf xs (xs ++ ys) = true := by
  induction xs with
  | nil => rfl
  | cons a as ih => simp [charsPrefixOf, ih]

theorem charsPrefixOf_extend {n hay : List Char} (b : List Char)
    (h : charsPrefixOf n hay = true) : charsPrefixOf n (hay ++ b) = true := by
  induction n generalizing hay with
  | nil => rfl
  | cons a as ih =>
    cases hay with
    | nil => exact absurd h (by simp [charsPrefixOf])
    | cons c cs =>
      simp only [charsPrefixOf, Bool.and_eq_true] at h
      simp [charsPrefixOf, h.1, ih h.2]

theorem charsInfixOf_append_left (n a : List Char) {hay : List Char}
    (h : charsInfixOf n hay = true) : charsInfixOf n (a ++ hay) = true := by
  induction a with
  | nil => exact h
  | cons c cs ih =>
    cases n with
    | nil => simp [charsInfixOf, charsPrefixOf]
    | cons m ms => simp [charsInfixOf, ih]

theorem charsInfixOf_self_append (n b : List Char) :
    charsInfixOf n (n ++ b) = true := by
  cases n with
  | nil =>
    cases b with
    | nil => rfl
    | cons c cs => simp [charsInfixOf, charsPrefixOf]
  | cons m ms =>
    have h := charsPrefixOf_append_self (m :: ms) b
    simp only [List.cons_append] at h
    simp [charsInfixOf, h]

theorem strContains_append_left (a : String) {b m : String}
    (h : strContains b m = true) : strContains (a ++ b) m = true := by
  unfold strContains at h ⊢
  rw [str_data_append]
  exact charsInfixOf_append_left _ _ h

theorem strContains_self_append (m b : String) : strContains (m ++ b) m = true := by
  unfold strContains
  rw [str_data_append]
  exact charsInfixOf_self_append _ _

theorem pyStartsWith_append (a b : String) : pyStartsWith (a ++ b) a = true := by
  unfold pyStartsWith
  rw [str_data_append]
  exact charsPrefixOf_append_self _ _

theorem find?_key_filter_ne (l : List (String × String)) (p q : String)
    (h : q ≠ p) :
    (l.filter (fun kv => kv.1 != p)).find? (fun kv => kv.1 == q)
      = l.find? (fun kv => kv.1 == q) := by
  induction l with
  | nil => rfl
  | cons a l ih =>
    have hpq : (p == q) = false := by
      simp only [beq_eq_false_iff_ne, ne_eq]
      exact fun e => h e.symm
    by_cases hap : a.1 = p
    · have haq : (a.1 == q) = false := by
        simp only [beq_eq_false_iff_ne, ne_eq, hap]
        exact fun e => h e.symm
      simp [List.filter_cons, hap, List.find?_cons, haq, hpq, ih, h]
    · by_cases haq : a.1 = q
      · simp [List.filter_cons, hap, List.find?_cons, haq, hpq, ih, h]
      · simp [List.filter_cons, hap, List.find?_cons, haq, hpq, ih, h]

theorem fileContent_writeFile_self (w : World) (p c : String) :
    fileContent (writeFile w p c) p = some c := by
  simp [fileContent, writeFile, List.find?_cons]

theorem fileContent_writeFile_ne (w : World) (p c q : String) (h : q ≠ p) :
    fileContent (writeFile w p c) q = fileContent w q := by
  unfold fileContent writeFile
  simp only [List.find?_cons]
  have hpq : (p == q) = false := by
    simp only [beq_eq_false_iff_ne, ne_eq]
    exact fun e => h e.symm
  simp only [hpq]
  rw [find?_key_filter_ne _ _ _ h]

theorem fileContent_removeFile_self (w : World) (p : String) :
    fileContent (removeFile w p) p = none := by
  unfold fileContent removeFile
  have : (w.files.filter (fun kv => kv.1 != p)).find? (fun kv => kv.1 == p)
      = none := by
    rw [List.find?_eq_none]
    intro x hx
    have := (List.mem_filter.mp hx).2
    simpa using this
  simp [this]

theorem fileContent_removeFile_ne (w : World) (p q : String) (h : q ≠ p) :
    fileContent (removeFile w p) q = fileContent w q := by
  unfold fileContent removeFile
  rw [find?_key_filter_ne _ _ _ h]

theorem fileExists_removeFile_self (w : World) (p : String) :
    fileExists (removeFile w p) p = false := by
  simp [fileExists, fileContent_removeFile_self]

theorem fileContent_mkdirParents (w : World) (p q : String) :
    fileContent (mkdirParents w p) q = fileContent w q := by
  unfold mkdirParents
  split <;> rfl

theorem fileExists_writeFile_of (w : World) (p c q : String)
    (h : fileExists w q = true) : fileExists (writeFile w p c) q = true := by
  by_cases hqp : q = p
  · subst hqp
    simp [fileExists, fileContent_writeFile_self]
  · rw [fileExists, fileContent_writeFile_ne w p c q hqp]
    exact h

theorem dirExists_writeFile (w : World) (p c q : String) :
    dirExists (writeFile w p c) q = dirExists w q := rfl

theorem dirExists_mkdirParents_of (w : World) (p q : String)
    (h : dirExists w q = true) : dirExists (mkdirParents w p) q = true := by
  unfold mkdirParents
  split
  · exact h
  · simpa [dirExists, List.contains_cons] using Or.inr (by simpa [dirExists] using h)

theorem trace_app_output (t u : Trace) :
    (t.app u).output = t.output ++ u.output := rfl

theorem trace_app_calls (t u : Trace) :
    (t.app u).calls = t.calls ++ u.calls := rfl

theorem trace_lines_calls (ls : List String) : (Trace.lines ls).calls = [] := rfl

theorem installAttempted_app (t u : Trace) :
    installAttempted (t.app u) = (installAttempted t || installAttempted u) := by
  simp [installAttempted, Trace.app, List.any_append]

theorem installAttempted_lines (ls : List String) :
    installAttempted (Trace.lines ls) = false := rfl

theorem mem_setInsert (y x : String) (l : List String) :
    y ∈ setInsert x l ↔ y = x ∨ y ∈ l := by
  unfold setInsert
  split
  · rename_i hc
    simp only [List.contains_iff_exists_mem_beq, beq_iff_eq] at hc
    obtain ⟨z, hz, hz2⟩ := hc
    subst hz2
    constructor
    · exact Or.inr
    · rintro (rfl | hy)
      · exact hz
      · exact hy
  · simp [List.mem_cons]

theorem mem_setOfList (y : String) (l : List String) :
    y ∈ setOfList l ↔ y ∈ l := by
  unfold setOfList
  induction l with
  | nil => simp
  | cons a l ih =>
    simp only [List.foldr_cons, List.mem_cons]
    rw [mem_setInsert]
    rw [ih]

theorem setEqStr_iff (a b : List String) :
    setEqStr a b = true ↔ ∀ x, x ∈ a ↔ x ∈ b := by
  unfold setEqStr
  simp only [Bool.and_eq_true, List.all_eq_true]
  constructor
  · rintro ⟨h1, h2⟩ x
    constructor
    · intro hx
      simpa using h1 x hx
    · intro hx
      simpa using h2 x hx
  · intro h
    constructor
    · intro x hx
      simpa using (h x).mp hx
    · intro x hx
      simpa using (h x).mpr hx

theorem setEqStr_iff_toFinset (a b : List String) :
    setEqStr a b = true ↔ a.toFinset = b.toFinset := by
  rw [setEqStr_iff]
  constructor
  · intro h
    apply Finset.ext
    intro x
    simp only [List.mem_toFinset]
    exact h x
  · intro h x
    have := Finset.ext_iff.mp h x
    simpa [List.mem_toFinset] using this

namespace VirtualEnvironmentSetup

theorem get_installed_packages_writeFile (s : VirtualEnvironmentSetup)
    (w : World) (p c : String) :
    s.get_installed_packages (writeFile w p c) = s.get_installed_packages w := rfl

theorem get_required_packages_writeFile (s : VirtualEnvironmentSetup)
    (w : World) (p c : String) (h : s.requirements_file ≠ p) :
    s.get_required_packages (writeFile w p c) = s.get_required_packages w := by
  unfold get_required_packages
  rw [fileContent_writeFile_ne w p c _ h]

theorem get_installed_packages_calls (s : VirtualEnvironmentSetup) (w : World) :
    (s.get_installed_packages w).2.calls = [SubprocCall.pipFreeze s.pip_executable] := by
  unfold get_installed_packages
  cases w.freezeResult <;> rfl

theorem get_required_packages_calls (s : VirtualEnvironmentSetup) (w : World) :
    (s.get_required_packages w).2.calls = [] := by
  unfold get_required_packages
  cases fileContent w s.requirements_file <;> rfl

theorem get_required_packages_nonempty_exists (s : VirtualEnvironmentSetup)
    (w : World) (h : (s.get_required_packages w).1 ≠ []) :
    fileExists w s.requirements_file = true := by
  unfold get_required_packages at h
  unfold fileExists
  cases hf : fileContent w s.requirements_file with
  | none => rw [hf] at h; simp at h
  | some c => rfl

theorem install_packages_missing (s : VirtualEnvironmentSetup) (w : World)
    (h : fileExists w s.requirements_file = false) :
    (s.install_packages w).1 = true ∧ (s.install_packages w).2.1 = w ∧
    (s.install_packages w).2.2.calls = [] := by
  unfold install_packages
  simp [h, Trace.lines]

theorem install_packages_found (s : VirtualEnvironmentSetup) (w : World)
    (h : fileExists w s.requirements_file = true) :
    SubprocCall.pipUpgrade s.pip_executable ∈ (s.install_packages w).2.2.calls ∧
    (w.pipUpgradeOk = true →
      SubprocCall.pipInstallReq s.pip_executable s.requirements_file ∈
        (s.install_packages w).2.2.calls) ∧
    installAttempted (s.install_packages w).2.2 = true ∧
    (s.install_packages w).2.1 = w := by
  unfold install_packages
  by_cases h1 : w.pipUpgradeOk = false
  · simp [h, h1, Trace.app, Trace.lines, installAttempted, isInstallCall]
  · by_cases h2 : w.pipInstallOk = false
    · simp [h, h1, h2, Trace.app, Trace.lines, installAttempted, isInstallCall]
    · simp [h, h1, h2, Trace.app, Trace.lines, installAttempted, isInstallCall]

theorem install_packages_invariant (s : VirtualEnvironmentSetup) (w w2 : World)
    (hf : fileExists w2 s.requirements_file = fileExists w s.requirements_file)
    (hu : w2.pipUpgradeOk = w.pipUpgradeOk)
    (hi : w2.pipInstallOk = w.pipInstallOk) :
    (s.install_packages w2).1 = (s.install_packages w).1 ∧
    (s.install_packages w2).2.2 = (s.install_packages w).2.2 := by
  unfold install_packages
  rw [hf, hu, hi]
  by_cases h1 : fileExists w s.requirements_file = false
  · simp [h1]
  · by_cases h2 : w.pipUpgradeOk = false
    · simp [h1, h2]
    · by_cases h3 : w.pipInstallOk = false
      · simp [h1, h2, h3]
      · simp [h1, h2, h3]

theorem setup_update_eq (s : VirtualEnvironmentSetup) (w : World)
    (h : fileExists w s.activate_script = true) :
    (s.setup w).1 = (s.update_virtual_environment w).1 ∧
    (s.setup w).2.2.calls = (s.update_virtual_environment w).2.2.calls := by
  unfold setup
  rw [h]
  by_cases hb : (s.update_virtual_environment w).1 = true
  · simp [hb, trace_app_calls, trace_lines_calls, create_activation_script]
  · simp only [Bool.not_eq_true] at hb
    simp [hb]

theorem setup_create_eq (s : VirtualEnvironmentSetup) (w : World)
    (h : fileExists w s.activate_script = false) :
    (s.setup w).1 = (s.create_virtual_environment w).1 ∧
    (s.setup w).2.2.calls = (s.create_virtual_environment w).2.2.calls ∧
    ((s.create_virtual_environment w).1 = false →
      (s.setup w).2.1 = (s.create_virtual_environment w).2.1) := by
  unfold setup
  rw [h]
  by_cases hb : (s.create_virtual_environment w).1 = true
  · simp [hb, trace_app_calls, trace_lines_calls, create_activation_script]
  · simp only [Bool.not_eq_true] at hb
    simp [hb]

theorem update_props (s : VirtualEnvironmentSetup) (w : World)
    (hne : s.requirements_file ≠ s.venvlocation_file) :
    ((s.get_required_packages w).1 = [] →
       (s.update_virtual_environment w).1 = true ∧
       installAttempted (s.update_virtual_environment w).2.2 = false) ∧
    ((s.get_required_packages w).1 ≠ [] →
       (installAttempted (s.update_virtual_environment w).2.2 = true ↔
          setEqStr (s.get_installed_packages w).1 (s.get_required_packages w).1 = false) ∧
       (setEqStr (s.get_installed_packages w).1 (s.get_required_packages w).1 = true →
          (s.update_virtual_environment w).1 = true ∧
          installAttempted (s.update_virtual_environment w).2.2 = false) ∧
       (setEqStr (s.get_installed_packages w).1 (s.get_required_packages w).1 = false →
          SubprocCall.pipUpgrade s.pip_executable ∈ (s.update_virtual_environment w).2.2.calls ∧
          (w.pipUpgradeOk = true →
            SubprocCall.pipInstallReq s.pip_executable s.requirements_file ∈
              (s.update_virtual_environment w).2.2.calls))) := by
  have key : ∃ (w1 : World) (tM : Trace), tM.calls = [] ∧
      w1.pipUpgradeOk = w.pipUpgradeOk ∧
      fileExists w1 s.requirements_file = fileExists w s.requirements_file ∧
      s.update_virtual_environment w =
        (if (s.get_required_packages w).1 = [] then
          (true, w1,
           ((((Trace.lines ["Virtual environment already exists, checking packages..."]).app
               tM).app (s.get_installed_packages w).2).app
               (s.get_required_packages w).2).app
             (Trace.lines ["No requirements.txt found or it\x27s empty."]))
        else if setEqStr (s.get_installed_packages w).1 (s.get_required_packages w).1 = false then
          ((s.install_packages w1).1, (s.install_packages w1).2.1,
           (((((Trace.lines ["Virtual environment already exists, checking packages..."]).app
               tM).app (s.get_installed_packages w).2).app
               (s.get_required_packages w).2).app
             (Trace.lines ["Package requirements have changed, installing/updating packages..."])).app
             (s.install_packages w1).2.2)
        else
          (true, w1,
           ((((Trace.lines ["Virtual environment already exists, checking packages..."]).app
               tM).app (s.get_installed_packages w).2).app
               (s.get_required_packages w).2).app
             (Trace.lines ["All required packages are already installed."]))) := by
    by_cases hloc : fileExists w s.venvlocation_file = false
    · refine ⟨writeFile w s.venvlocation_file (s.venv_path ++ "\n"),
        Trace.lines ["Created " ++ s.venvlocation_file], rfl, rfl, ?_, ?_⟩
      · rw [fileExists, fileContent_writeFile_ne _ _ _ _ hne]; rfl
      · have e1 : s.get_installed_packages
            (writeFile w s.venvlocation_file (s.venv_path ++ "\n"))
            = s.get_installed_packages w := rfl
        have e2 : s.get_required_packages
            (writeFile w s.venvlocation_file (s.venv_path ++ "\n"))
            = s.get_required_packages w :=
          get_required_packages_writeFile s w _ _ hne
        simp only [update_virtual_environment, hloc, if_true, eq_self_iff_true,
          create_venv_location_file, e1, e2]
    · refine ⟨w, Trace.nil, rfl, rfl, rfl, ?_⟩
      simp [update_virtual_environment, hloc]
  obtain ⟨w1, tM, htM, hor, hfx, heq⟩ := key
  rw [heq]
  constructor
  · intro h0
    simp [h0, installAttempted, trace_app_calls, trace_lines_calls, htM,
      get_installed_packages_calls, get_required_packages_calls, isInstallCall]
  · intro h0
    have hex1 : fileExists w1 s.requirements_file = true := by
      rw [hfx]; exact get_required_packages_nonempty_exists s w h0
    by_cases hset : setEqStr (s.get_installed_packages w).1
        (s.get_required_packages w).1 = false
    · obtain ⟨hup, hinst, hatt, _⟩ := install_packages_found s _ hex1
      refine ⟨?_, ?_, ?_⟩
      · simp only [h0, hset, if_neg, if_false, eq_self_iff_true, if_true,
          iff_true]
        simp [installAttempted_app, hatt, h0, hset]
      · intro habs
        rw [habs] at hset
        exact absurd hset (by decide)
      · intro _
        constructor
        · simp only [h0, hset, eq_self_iff_true, if_true]
          simp [trace_app_calls, List.mem_append, hup, h0, hset]
        · intro hupok
          have := hinst (by rw [hor]; exact hupok)
          simp only [h0, hset, eq_self_iff_true, if_true]
          simp [trace_app_calls, List.mem_append, this, h0, hset]
    · have hset2 : setEqStr (s.get_installed_packages w).1
          (s.get_required_packages w).1 = true := by
        simpa using hset
      refine ⟨?_, ?_, ?_⟩
      · simp [h0, hset2, installAttempted, trace_app_calls, trace_lines_calls,
          htM, get_installed_packages_calls, get_required_packages_calls,
          isInstallCall]
      · intro _
        simp [h0, hset2, installAttempted, trace_app_calls, trace_lines_calls,
          htM, get_installed_packages_calls, get_required_packages_calls,
          isInstallCall]
      · intro habs
        rw [habs] at hset2
        exact absurd hset2 (by decide)


end VirtualEnvironmentSetup

end VenvSpec

namespace VenvSpec

namespace VirtualEnvironmentSetup

/-- C5: on the update path of `setup` (activation marker present), an empty
required-package set short-circuits to success with no install; otherwise
the installer (pip upgrade, then `install -r manifest`) runs if and only if
the installed and required package sets differ as sets, and equality gives
success with no install invocation. -/
theorem C5_update_reconciliation (s : VirtualEnvironmentSetup) (w : World)
    (hmark : fileExists w s.activate_script = true)
    (hne : s.requirements_file ≠ s.venvlocation_file) :
    ((s.get_required_packages w).1 = [] →
       (s.setup w).1 = true ∧ installAttempted (s.setup w).2.2 = false) ∧
    ((s.get_required_packages w).1 ≠ [] →
       (installAttempted (s.setup w).2.2 = true ↔
          (s.get_installed_packages w).1.toFinset ≠
            (s.get_required_packages w).1.toFinset) ∧
       ((s.get_installed_packages w).1.toFinset =
           (s.get_required_packages w).1.toFinset →
          (s.setup w).1 = true ∧ installAttempted (s.setup w).2.2 = false) ∧
       ((s.get_installed_packages w).1.toFinset ≠
           (s.get_required_packages w).1.toFinset →
          SubprocCall.pipUpgrade s.pip_executable ∈ (s.setup w).2.2.calls ∧
          (w.pipUpgradeOk = true →
            SubprocCall.pipInstallReq s.pip_executable s.requirements_file ∈
              (s.setup w).2.2.calls))) := by
  have hU := update_props s w hne
  have hS := setup_update_eq s w hmark
  have hAtt : installAttempted (s.setup w).2.2
      = installAttempted (s.update_virtual_environment w).2.2 := by
    simp [installAttempted, hS.2]
  have hFin : setEqStr (s.get_installed_packages w).1 (s.get_required_packages w).1 = false
      ↔ (s.get_installed_packages w).1.toFinset ≠ (s.get_required_packages w).1.toFinset := by
    constructor
    · intro h hfin
      rw [(setEqStr_iff_toFinset _ _).mpr hfin] at h
      exact absurd h (by decide)
    · intro h
      cases hb : setEqStr (s.get_installed_packages w).1 (s.get_required_packages w).1 with
      | false => rfl
      | true => exact absurd ((setEqStr_iff_toFinset _ _).mp hb) h
  constructor
  · intro h0
    obtain ⟨h1, h2⟩ := hU.1 h0
    refine ⟨?_, ?_⟩
    · rw [hS.1]; exact h1
    · rw [hAtt]; exact h2
  · intro h0
    obtain ⟨hiff, heq, hneq⟩ := hU.2 h0
    refine ⟨?_, ?_, ?_⟩
    · rw [hAtt, hiff]; exact hFin
    · intro hfin
      have hset : setEqStr (s.get_installed_packages w).1
          (s.get_required_packages w).1 = true :=
        (setEqStr_iff_toFinset _ _).mpr hfin
      obtain ⟨h1, h2⟩ := heq hset
      exact ⟨by rw [hS.1]; exact h1, by rw [hAtt]; exact h2⟩
    · intro hfin
      obtain ⟨h1, h2⟩ := hneq (hFin.mpr hfin)
      exact ⟨by rw [hS.2]; exact h1, fun hok => by rw [hS.2]; exact h2 hok⟩

end VirtualEnvironmentSetup

/-- Witness for C5 at a concrete update-path run whose installed and
required sets agree: the run succeeds without invoking the installer. -/
theorem C5_update_reconciliation_witness :
    (sC5.setup wC5).1 = true ∧ installAttempted (sC5.setup wC5).2.2 = false :=
  ((VirtualEnvironmentSetup.C5_update_reconciliation sC5 wC5 (by decide)
      (by decide)).2 (by decide)).2.1 (by decide)

end VenvSpec

namespace VenvSpec

namespace VirtualEnvironmentSetup

/-- C6: `get_required_packages` returns the empty set when the manifest
file is missing (without raising), and otherwise exactly the set of
stripped lines that are non-blank and do not start with `#`; in
particular a manifest of only blank/comment lines yields the empty set. -/
theorem C6_get_required_packages (s : VirtualEnvironmentSetup) (w : World) :
    (fileContent w s.requirements_file = none →
      (s.get_required_packages w).1 = []) ∧
    (∀ content, fileContent w s.requirements_file = some content →
      (∀ p, p ∈ (s.get_required_packages w).1 ↔
         (p ∈ (pySplit content '\n').map pyStrip ∧ p ≠ "" ∧
          pyStartsWith p "#" = false)) ∧
      ((∀ l ∈ pySplit content '\n',
          pyStrip l = "" ∨ pyStartsWith (pyStrip l) "#" = true) →
        (s.get_required_packages w).1 = [])) := by
  constructor
  · intro h
    simp [get_required_packages, h]
  · intro content h
    constructor
    · intro p
      simp only [get_required_packages, h]
      rw [mem_setOfList]
      unfold requirementLines
      simp only [List.mem_filter, Bool.and_eq_true, Bool.not_eq_true',
        beq_eq_false_iff_ne, ne_eq]
    · intro hall
      simp only [get_required_packages, h]
      have : requirementLines content = [] := by
        unfold requirementLines
        rw [List.filter_eq_nil_iff]
        intro a ha
        obtain ⟨l, hl, rfl⟩ := List.mem_map.mp ha
        rcases hall l hl with hb | hh
        · simp [hb]
        · simp [hh]
      rw [this]
      rfl

end VirtualEnvironmentSetup

/-- Witness for C6: a concrete manifest holding only comments and blank
lines parses to the empty required-package set. -/
theorem C6_get_required_packages_witness :
    (sC6.get_required_packages wC6).1 = [] :=
  ((VirtualEnvironmentSetup.C6_get_required_packages sC6 wC6).2
      "# dev tools\n\n  #pin\n   \n" (by decide)).2 (by decide)

/-- C8: the legacy create-only parsing path is taken exactly when none of
the tokens `list`, `remove`, `create` occurs in the raw argument list, and
the legacy parser ignores unrecognized tokens instead of erroring. -/
theorem C8_legacy_dispatch :
    (∀ argv : List String, dispatchMode argv = Mode.legacy ↔
       ("list" ∉ argv ∧ "remove" ∉ argv ∧ "create" ∉ argv)) ∧
    (∀ argv : List String,
       (∀ t ∈ argv, isValueFlag t = false ∧ isSwitchFlag t = false) →
       parseKnownArgs argv legacyInit = some (legacyInit, argv)) := by
  constructor
  · intro argv
    unfold dispatchMode hasSubcommandToken subcommandTokens
    by_cases h : (["list", "remove", "create"].any fun cmd => argv.contains cmd) = true
    · simp only [h, if_true]
      simp only [List.any_eq_true, List.mem_cons] at h
      constructor
      · intro habs
        exact absurd habs (by decide)
      · rintro ⟨h1, h2, h3⟩
        obtain ⟨cmd, hc, hmem⟩ := h
        rcases hc with rfl | rfl | rfl | hf
        · exact absurd (by simpa using hmem) h1
        · exact absurd (by simpa using hmem) h2
        · exact absurd (by simpa using hmem) h3
        · simp at hf
    · simp only [h, if_false]
      simp only [List.any_eq_true, List.mem_cons, not_exists] at h
      constructor
      · intro _
        push_neg at h
        refine ⟨?_, ?_, ?_⟩
        · intro hm
          exact absurd (by simpa using hm) (by simpa using h "list" (Or.inl rfl))
        · intro hm
          exact absurd (by simpa using hm)
            (by simpa using h "remove" (Or.inr (Or.inl rfl)))
        · intro hm
          exact absurd (by simpa using hm)
            (by simpa using h "create" (Or.inr (Or.inr (Or.inl rfl))))
      · intro _
        rfl
  · intro argv
    induction argv with
    | nil => intro _; rfl
    | cons t rest ih =>
      intro h
      have ht := h t (List.mem_cons_self _ _)
      have hrest : ∀ x ∈ rest, isValueFlag x = false ∧ isSwitchFlag x = false :=
        fun x hx => h x (List.mem_cons_of_mem _ hx)
      unfold parseKnownArgs
      simp [ht.1, ht.2, ih hrest]

end VenvSpec

namespace VenvSpec

/-- Witness for C8 at concrete inputs: an argument list without any
subcommand token dispatches to legacy mode, and a wholly-unrecognized
argument list parses without error, every token collected as unknown. -/
theorem C8_legacy_dispatch_witness :
    dispatchMode ["prog", "--name", "x"] = Mode.legacy ∧
    parseKnownArgs ["--unknown-flag", "extra"] legacyInit
      = some (legacyInit, ["--unknown-flag", "extra"]) :=
  ⟨(C8_legacy_dispatch.1 ["prog", "--name", "x"]).mpr (by decide),
   C8_legacy_dispatch.2 ["--unknown-flag", "extra"] (by decide)⟩

end VenvSpec

namespace VenvSpec

theorem not_under_ne_slash (p q x : String) (h : pathUnder p q = false) :
    q ≠ p ++ ("/" ++ x) := by
  intro he
  have hpre : pyStartsWith q (p ++ "/") = true := by
    rw [he, ← str_append_assoc]
    exact pyStartsWith_append _ _
  unfold pathUnder at h
  rw [hpre] at h
  simp at h

theorem find?_isSome_cons {α : Type} (p : α → Bool) (a : α) (l : List α)
    (h : (l.find? p).isSome = true) : ((a :: l).find? p).isSome = true := by
  rw [List.find?_cons]
  cases hpa : p a <;> simp [h]

theorem venvCreateAt_pos (w : World) (p : String) (hok : w.venvCreateOk = true) :
    venvCreateAt w p =
      (true,
       { w with
          dirs := p :: (p ++ "/bin") :: w.dirs,
          files := (p ++ "/bin/activate", "venv activation file for " ++ p)
                :: (p ++ "/bin/pip", "pip executable")
                :: (p ++ "/bin/python", "python executable")
                :: w.files },
       ⟨[], [SubprocCall.venvCreate p]⟩) := by
  unfold venvCreateAt
  rw [hok]
  simp

theorem mkdirParents_files (w : World) (p : String) :
    (mkdirParents w p).files = w.files := by
  unfold mkdirParents
  split <;> rfl

theorem mkdirParents_venvCreateOk (w : World) (p : String) :
    (mkdirParents w p).venvCreateOk = w.venvCreateOk := by
  unfold mkdirParents
  split <;> rfl

theorem fileContent_eq_of_files_eq (w w2 : World) (q : String)
    (h : w2.files = w.files) : fileContent w2 q = fileContent w q := by
  unfold fileContent
  rw [h]

namespace VirtualEnvironmentSetup

theorem create_eq (s : VirtualEnvironmentSetup) (w : World)
    (hok : w.venvCreateOk = true) :
    s.create_virtual_environment w =
      ((s.install_packages
          (writeFile (venvCreateAt (mkdirParents w s.base_dir) s.venv_path).2.1
            s.venvlocation_file (s.venv_path ++ "\n"))).1,
       (s.install_packages
          (writeFile (venvCreateAt (mkdirParents w s.base_dir) s.venv_path).2.1
            s.venvlocation_file (s.venv_path ++ "\n"))).2.1,
       ((((Trace.lines
            ["Created base directory: " ++ s.base_dir,
             "Creating virtual environment in " ++ s.venv_path]).app
           ⟨[], [SubprocCall.venvCreate s.venv_path]⟩).app
           (Trace.lines ["Created " ++ s.venvlocation_file])).app
         (s.install_packages
            (writeFile (venvCreateAt (mkdirParents w s.base_dir) s.venv_path).2.1
              s.venvlocation_file (s.venv_path ++ "\n"))).2.2)) := by
  have hok1 : (mkdirParents w s.base_dir).venvCreateOk = true := by
    rw [mkdirParents_venvCreateOk]
    exact hok
  have h1 : (venvCreateAt (mkdirParents w s.base_dir) s.venv_path).1 = true := by
    rw [venvCreateAt_pos _ _ hok1]
  have h2 : (venvCreateAt (mkdirParents w s.base_dir) s.venv_path).2.2
      = ⟨[], [SubprocCall.venvCreate s.venv_path]⟩ := by
    rw [venvCreateAt_pos _ _ hok1]
  simp only [create_virtual_environment, create_venv_location_file, h1, h2]
  simp

end VirtualEnvironmentSetup

end VenvSpec

namespace VenvSpec
namespace VirtualEnvironmentSetup

theorem install_packages_world (s : VirtualEnvironmentSetup) (w : World) :
    (s.install_packages w).2.1 = w := by
  unfold install_packages
  by_cases h1 : fileExists w s.requirements_file = false
  · simp [h1]
  · by_cases h2 : w.pipUpgradeOk = false
    · simp [h1, h2]
    · by_cases h3 : w.pipInstallOk = false
      · simp [h1, h2, h3]
      · simp [h1, h2, h3]

theorem install_packages_fails (s : VirtualEnvironmentSetup) (w : World)
    (h : fileExists w s.requirements_file = true)
    (hf : w.pipUpgradeOk = false ∨ w.pipInstallOk = false) :
    (s.install_packages w).1 = false := by
  unfold install_packages
  rcases hf with hf | hf
  · simp [h, hf]
  · by_cases h2 : w.pipUpgradeOk = false
    · simp [h, h2]
    · simp [h, h2, hf]

/-- Properties of the world reached on the create path just before package
installation: base directory made, venv created with its marker, location
marker written. -/
theorem create_w3_props (s : VirtualEnvironmentSetup) (w : World)
    (hok : w.venvCreateOk = true) :
    dirExists
      (writeFile (venvCreateAt (mkdirParents w s.base_dir) s.venv_path).2.1
        s.venvlocation_file (s.venv_path ++ "\n")) s.venv_path = true ∧
    fileExists
      (writeFile (venvCreateAt (mkdirParents w s.base_dir) s.venv_path).2.1
        s.venvlocation_file (s.venv_path ++ "\n")) s.activate_script = true ∧
    fileContent
      (writeFile (venvCreateAt (mkdirParents w s.base_dir) s.venv_path).2.1
        s.venvlocation_file (s.venv_path ++ "\n")) s.venvlocation_file
      = some (s.venv_path ++ "\n") ∧
    (fileExists w s.requirements_file = true →
      fileExists
        (writeFile (venvCreateAt (mkdirParents w s.base_dir) s.venv_path).2.1
          s.venvlocation_file (s.venv_path ++ "\n")) s.requirements_file = true) ∧
    (pathUnder s.venv_path s.requirements_file = false →
     s.requirements_file ≠ s.venvlocation_file →
     fileContent w s.requirements_file = none →
      fileExists
        (writeFile (venvCreateAt (mkdirParents w s.base_dir) s.venv_path).2.1
          s.venvlocation_file (s.venv_path ++ "\n")) s.requirements_file = false) := by
  have hok1 : (mkdirParents w s.base_dir).venvCreateOk = true := by
    rw [mkdirParents_venvCreateOk]
    exact hok
  have hW := venvCreateAt_pos (mkdirParents w s.base_dir) s.venv_path hok1
  refine ⟨?_, ?_, fileContent_writeFile_self _ _ _, ?_, ?_⟩
  · rw [dirExists_writeFile, hW]
    simp [dirExists, List.contains_cons]
  · apply fileExists_writeFile_of
    rw [hW]
    simp [fileExists, fileContent, activate_script, List.find?_cons]
  · intro h
    apply fileExists_writeFile_of
    rw [hW]
    unfold fileExists fileContent at h ⊢
    have hmap : ∀ (o : Option (String × String)),
        (Option.map (fun kv => kv.2) o).isSome = o.isSome := by
      intro o; cases o <;> rfl
    rw [hmap] at h ⊢
    apply find?_isSome_cons
    apply find?_isSome_cons
    apply find?_isSome_cons
    rw [mkdirParents_files]
    exact h
  · intro hu hne hnone
    rw [fileExists, fileContent_writeFile_ne _ _ _ _ hne, hW]
    have k1 : ((s.venv_path ++ "/bin/activate") == s.requirements_file) = false := by
      simp only [beq_eq_false_iff_ne, ne_eq]
      intro he
      refine not_under_ne_slash s.venv_path s.requirements_file "bin/activate" hu ?_
      rw [← he]
      rw [show ("/bin/activate" : String) = "/" ++ "bin/activate" from by decide]
    have k2 : ((s.venv_path ++ "/bin/pip") == s.requirements_file) = false := by
      simp only [beq_eq_false_iff_ne, ne_eq]
      intro he
      refine not_under_ne_slash s.venv_path s.requirements_file "bin/pip" hu ?_
      rw [← he]
      rw [show ("/bin/pip" : String) = "/" ++ "bin/pip" from by decide]
    have k3 : ((s.venv_path ++ "/bin/python") == s.requirements_file) = false := by
      simp only [beq_eq_false_iff_ne, ne_eq]
      intro he
      refine not_under_ne_slash s.venv_path s.requirements_file "bin/python" hu ?_
      rw [← he]
      rw [show ("/bin/python" : String) = "/" ++ "bin/python" from by decide]
    unfold fileContent
    simp only [List.find?_cons, k1, k2, k3]
    rw [mkdirParents_files]
    have : (w.files.find? (fun kv => kv.1 == s.requirements_file)) = none := by
      unfold fileContent at hnone
      exact Option.map_eq_none.mp hnone
    simp [this]

end VirtualEnvironmentSetup
end VenvSpec

namespace VenvSpec
namespace VirtualEnvironmentSetup

theorem requirementLines_eq_nil_of_blank (content : String)
    (h : ∀ l ∈ pySplit content '\n',
        pyStrip l = "" ∨ pyStartsWith (pyStrip l) "#" = true) :
    requirementLines content = [] := by
  unfold requirementLines
  rw [List.filter_eq_nil_iff]
  intro a ha
  obtain ⟨l, hl, rfl⟩ := List.mem_map.mp ha
  rcases h l hl with hb | hh
  · simp [hb]
  · simp [hh]

theorem get_required_packages_empty_of_blank (s : VirtualEnvironmentSetup)
    (w : World)
    (h : ∀ content, fileContent w s.requirements_file = some content →
        ∀ l ∈ pySplit content '\n',
          pyStrip l = "" ∨ pyStartsWith (pyStrip l) "#" = true) :
    (s.get_required_packages w).1 = [] := by
  unfold get_required_packages
  cases hf : fileContent w s.requirements_file with
  | none => rfl
  | some content =>
    simp only
    rw [requirementLines_eq_nil_of_blank content (h content hf)]
    rfl

/-- C3 (amended): on the UPDATE path a manifest of only blank/comment
lines behaves exactly like a missing manifest (success, no install
subprocess); on the CREATE path only a genuinely missing manifest skips
installation — an existing manifest, even one of only blank/comment lines,
still makes `install_packages` invoke the installer. -/
theorem C3_amended (s : VirtualEnvironmentSetup) (w : World)
    (hne : s.requirements_file ≠ s.venvlocation_file)
    (hblank : ∀ content, fileContent w s.requirements_file = some content →
       ∀ l ∈ pySplit content '\n',
         pyStrip l = "" ∨ pyStartsWith (pyStrip l) "#" = true) :
    (fileExists w s.activate_script = true →
       (s.setup w).1 = true ∧ installAttempted (s.setup w).2.2 = false) ∧
    (fileExists w s.activate_script = false → w.venvCreateOk = true →
       fileContent w s.requirements_file = none →
       pathUnder s.venv_path s.requirements_file = false →
       (s.setup w).1 = true ∧ installAttempted (s.setup w).2.2 = false) ∧
    (fileExists w s.activate_script = false → w.venvCreateOk = true →
       fileExists w s.requirements_file = true →
       SubprocCall.pipUpgrade s.pip_executable ∈ (s.setup w).2.2.calls) := by
  refine ⟨?_, ?_, ?_⟩
  · intro hmark
    have h0 : (s.get_required_packages w).1 = [] :=
      get_required_packages_empty_of_blank s w hblank
    obtain ⟨h1, h2⟩ := (update_props s w hne).1 h0
    have hS := setup_update_eq s w hmark
    refine ⟨by rw [hS.1]; exact h1, ?_⟩
    rw [show installAttempted (s.setup w).2.2
        = installAttempted (s.update_virtual_environment w).2.2 from by
      simp [installAttempted, hS.2]]
    exact h2
  · intro hmark hok hnone hu
    have hS := setup_create_eq s w hmark
    have hC := create_eq s w hok
    have hP := create_w3_props s w hok
    have hmiss : fileExists
        (writeFile (venvCreateAt (mkdirParents w s.base_dir) s.venv_path).2.1
          s.venvlocation_file (s.venv_path ++ "\n")) s.requirements_file = false :=
      hP.2.2.2.2 hu hne hnone
    obtain ⟨hi1, _, hi3⟩ := install_packages_missing s _ hmiss
    constructor
    · rw [hS.1, hC]
      exact hi1
    · rw [show installAttempted (s.setup w).2.2
          = installAttempted (s.create_virtual_environment w).2.2 from by
        simp [installAttempted, hS.2.1]]
      rw [hC]
      simp [installAttempted, trace_app_calls, trace_lines_calls, hi3,
        isInstallCall]
  · intro hmark hok hreq
    have hS := setup_create_eq s w hmark
    have hC := create_eq s w hok
    have hP := create_w3_props s w hok
    have hex3 : fileExists
        (writeFile (venvCreateAt (mkdirParents w s.base_dir) s.venv_path).2.1
          s.venvlocation_file (s.venv_path ++ "\n")) s.requirements_file = true :=
      hP.2.2.2.1 hreq
    obtain ⟨hup, _, _, _⟩ := install_packages_found s _ hex3
    rw [hS.2.1, hC]
    simp only [trace_app_calls, trace_lines_calls, List.mem_append]
    right
    exact hup

end VirtualEnvironmentSetup

/-- Counterexample to C3 as stated: on the create path, a manifest whose
lines are all blank or comments is not treated like a missing manifest —
the run still invokes the package-install subprocess. -/
theorem C3_counterexample :
    (∀ l ∈ pySplit "#c\n\n" '\n',
       pyStrip l = "" ∨ pyStartsWith (pyStrip l) "#" = true) ∧
    fileContent wC3 sC3.requirements_file = some "#c\n\n" ∧
    fileExists wC3 sC3.activate_script = false ∧
    (sC3.setup wC3).1 = true ∧
    installAttempted (sC3.setup wC3).2.2 = true := by decide

/-- Witness for the amended C3 at a concrete update-path run with a
comment-only manifest: success and no install subprocess. -/
theorem C3_amended_witness :
    (sC3.setup wC3u).1 = true ∧ installAttempted (sC3.setup wC3u).2.2 = false :=
  (VirtualEnvironmentSetup.C3_amended sC3 wC3u (by decide) (by decide)).1 (by decide)

end VenvSpec

namespace VenvSpec
namespace VirtualEnvironmentSetup

/-- C9: on the create path, the environment directory, its activation
marker and the LocationMarker are all produced before package installation
is attempted, so when the install subprocess fails the run returns failure
(exit 1 from `main`) while those artifacts remain on disk — no rollback. -/
theorem C9_create_no_rollback (s : VirtualEnvironmentSetup) (w : World)
    (hmark : fileExists w s.activate_script = false)
    (hok : w.venvCreateOk = true)
    (hreq : fileExists w s.requirements_file = true)
    (hfail : w.pipUpgradeOk = false ∨ w.pipInstallOk = false) :
    (s.setup w).1 = false ∧
    dirExists (s.setup w).2.1 s.venv_path = true ∧
    fileExists (s.setup w).2.1 s.activate_script = true ∧
    fileContent (s.setup w).2.1 s.venvlocation_file = some (s.venv_path ++ "\n") ∧
    (∀ (a : Args) (home cwd2 resp : String), a.command = Command.create →
       buildCreateSetup a home cwd2 = s → (main a home cwd2 resp w).1 = 1) := by
  have hS := setup_create_eq s w hmark
  have hC := create_eq s w hok
  have hP := create_w3_props s w hok
  have hex3 : fileExists
      (writeFile (venvCreateAt (mkdirParents w s.base_dir) s.venv_path).2.1
        s.venvlocation_file (s.venv_path ++ "\n")) s.requirements_file = true :=
    hP.2.2.2.1 hreq
  have hfail3 :
      (writeFile (venvCreateAt (mkdirParents w s.base_dir) s.venv_path).2.1
        s.venvlocation_file (s.venv_path ++ "\n")).pipUpgradeOk = false ∨
      (writeFile (venvCreateAt (mkdirParents w s.base_dir) s.venv_path).2.1
        s.venvlocation_file (s.venv_path ++ "\n")).pipInstallOk = false := by
    have e1 : (writeFile (venvCreateAt (mkdirParents w s.base_dir) s.venv_path).2.1
        s.venvlocation_file (s.venv_path ++ "\n")).pipUpgradeOk = w.pipUpgradeOk := by
      show (venvCreateAt (mkdirParents w s.base_dir) s.venv_path).2.1.pipUpgradeOk
          = w.pipUpgradeOk
      rw [venvCreateAt_pos _ _ (by rw [mkdirParents_venvCreateOk]; exact hok)]
      show (mkdirParents w s.base_dir).pipUpgradeOk = w.pipUpgradeOk
      unfold mkdirParents
      split <;> rfl
    have e2 : (writeFile (venvCreateAt (mkdirParents w s.base_dir) s.venv_path).2.1
        s.venvlocation_file (s.venv_path ++ "\n")).pipInstallOk = w.pipInstallOk := by
      show (venvCreateAt (mkdirParents w s.base_dir) s.venv_path).2.1.pipInstallOk
          = w.pipInstallOk
      rw [venvCreateAt_pos _ _ (by rw [mkdirParents_venvCreateOk]; exact hok)]
      show (mkdirParents w s.base_dir).pipInstallOk = w.pipInstallOk
      unfold mkdirParents
      split <;> rfl
    rw [e1, e2]
    exact hfail
  have hIfail : (s.install_packages
      (writeFile (venvCreateAt (mkdirParents w s.base_dir) s.venv_path).2.1
        s.venvlocation_file (s.venv_path ++ "\n"))).1 = false :=
    install_packages_fails s _ hex3 hfail3
  have hcfail : (s.create_virtual_environment w).1 = false := by
    rw [hC]
    exact hIfail
  have hworld : (s.setup w).2.1 =
      writeFile (venvCreateAt (mkdirParents w s.base_dir) s.venv_path).2.1
        s.venvlocation_file (s.venv_path ++ "\n") := by
    rw [hS.2.2 hcfail, hC]
    exact install_packages_world s _
  refine ⟨by rw [hS.1]; exact hcfail, ?_, ?_, ?_, ?_⟩
  · rw [hworld]; exact hP.1
  · rw [hworld]; exact hP.2.1
  · rw [hworld]; exact hP.2.2.1
  · intro a home cwd2 resp hcmd hbuild
    simp only [main, hcmd]
    rw [hbuild]
    have : (s.setup w).1 = false := by rw [hS.1]; exact hcfail
    simp [this]

end VirtualEnvironmentSetup

/-- Witness for C9: concrete create-path run with a manifest and a failing
`pip install` — setup fails, `main` exits 1, and the environment
directory, activation marker and `.venvlocation` all persist. -/
theorem C9_create_no_rollback_witness :
    (sC9.setup wC9).1 = false ∧
    dirExists (sC9.setup wC9).2.1 sC9.venv_path = true ∧
    fileExists (sC9.setup wC9).2.1 sC9.activate_script = true ∧
    fileContent (sC9.setup wC9).2.1 sC9.venvlocation_file
      = some (sC9.venv_path ++ "\n") ∧
    (main argsC9 "/h" "/w" "" wC9).1 = 1 := by
  have h := VirtualEnvironmentSetup.C9_create_no_rollback sC9 wC9 (by decide)
    (by decide) (by decide) (by decide)
  exact ⟨h.1, h.2.1, h.2.2.1, h.2.2.2.1,
    h.2.2.2.2 argsC9 "/h" "/w" "" (by decide) (by decide)⟩

end VenvSpec

namespace VenvSpec

theorem strContains_does_not_exist (pre post : String) :
    strContains (pre ++ "\x27 does not exist at " ++ post) "does not exist" = true := by
  rw [show ("\x27 does not exist at " : String)
      = "\x27 " ++ ("does not exist" ++ " at ") from by decide]
  rw [str_append_assoc]
  apply strContains_append_left
  rw [str_append_assoc]
  apply strContains_append_left
  rw [str_append_assoc]
  exact strContains_self_append _ _

namespace VirtualEnvironmentSetup

theorem remove_missing (s : VirtualEnvironmentSetup) (force : Bool)
    (resp : String) (w : World) (hmiss : pathExists w s.venv_path = false) :
    s.remove_environment force resp w =
      (false, w,
       Trace.lines ["Virtual environment \x27" ++ s.venv_name ++
         "\x27 does not exist at " ++ s.venv_path]) := by
  unfold remove_environment
  rw [if_pos hmiss]

theorem remove_cancelled (s : VirtualEnvironmentSetup) (resp : String)
    (w : World) (hex : pathExists w s.venv_path = true)
    (h1 : pyLower resp ≠ "y") (h2 : pyLower resp ≠ "yes") :
    (s.remove_environment false resp w).1 = false ∧
    (s.remove_environment false resp w).2.1 = w ∧
    "Deletion cancelled." ∈ (s.remove_environment false resp w).2.2.output := by
  unfold remove_environment
  simp [hex, h1, h2, trace_app_output, List.mem_append, Trace.lines, Trace.app]

end VirtualEnvironmentSetup

end VenvSpec

namespace VenvSpec

/-- Counterexample to C1 as stated: a concrete `remove` invocation without
force whose confirmation input is `n` prints `Deletion cancelled.` and
performs no removal, but `remove_environment` returns `False` and the
process exits with code 1, not 0. -/
theorem C1_counterexample :
    (main argsRem "/h" "/w" "n" wRem).1 = 1 ∧
    (main argsRem "/h" "/w" "n" wRem).2.1 = wRem ∧
    "Deletion cancelled." ∈ (main argsRem "/h" "/w" "n" wRem).2.2.output := by
  decide

/-- C1 (amended): for every `remove` invocation without force reaching the
confirmation prompt, a non-`y`/`yes` (case-insensitive) answer prints
`Deletion cancelled.`, removes nothing, and the operation returns a
FAILURE result, so the process exits with code 1. -/
theorem C1_amended (a : Args) (home cwd resp : String) (w : World) (n : String)
    (hcmd : a.command = Command.remove) (hname : a.name = some n) (hn : n ≠ "")
    (hforce : a.force = false)
    (h1 : pyLower resp ≠ "y") (h2 : pyLower resp ≠ "yes")
    (hex : pathExists w
      (((a.base_dir).getD (home ++ "/virtual_environments")) ++ "/" ++ n) = true) :
    (main a home cwd resp w).1 = 1 ∧
    (main a home cwd resp w).2.1 = w ∧
    "Deletion cancelled." ∈ (main a home cwd resp w).2.2.output := by
  have hbeq : (n == "") = false := by
    simp only [beq_eq_false_iff_ne, ne_eq]
    exact hn
  simp only [main, hcmd, hname, Option.getD_some, hbeq, Bool.false_eq_true,
    if_false, hforce]
  have hr := VirtualEnvironmentSetup.remove_cancelled
    { venv_name := n, base_dir := (a.base_dir).getD (home ++ "/virtual_environments"),
      requirements_file := cwd ++ "/requirements.txt", cwd := cwd }
    resp w hex h1 h2
  exact ⟨by rw [hr.1]; simp, hr.2.1, hr.2.2⟩

namespace VirtualEnvironmentSetup

/-- C7: `remove` on a non-existent environment prints a message containing
`does not exist`, deletes nothing, and `main` exits with code 1. -/
theorem C7_remove_nonexistent (a : Args) (home cwd resp : String) (w : World)
    (n : String) (hcmd : a.command = Command.remove) (hname : a.name = some n)
    (hn : n ≠ "")
    (hmiss : pathExists w
      (((a.base_dir).getD (home ++ "/virtual_environments")) ++ "/" ++ n) = false) :
    (main a home cwd resp w).1 = 1 ∧
    (main a home cwd resp w).2.1 = w ∧
    ∃ l ∈ (main a home cwd resp w).2.2.output,
      strContains l "does not exist" = true := by
  have hbeq : (n == "") = false := by
    simp only [beq_eq_false_iff_ne, ne_eq]
    exact hn
  simp only [main, hcmd, hname, Option.getD_some, hbeq, Bool.false_eq_true,
    if_false]
  rw [remove_missing _ _ _ _ hmiss]
  refine ⟨rfl, rfl, ?_⟩
  refine ⟨_, List.mem_singleton_self _, ?_⟩
  show strContains (("Virtual environment \x27" ++ n) ++ "\x27 does not exist at "
      ++ (((a.base_dir).getD (home ++ "/virtual_environments")) ++ "/" ++ n))
      "does not exist" = true
  exact strContains_does_not_exist _ _

end VirtualEnvironmentSetup

/-- Witness for C7: removing the non-existent environment `ghost` exits 1,
changes nothing, and reports `does not exist`. -/
theorem C7_remove_nonexistent_witness :
    (main argsC7 "/h" "/w" "" wRem).1 = 1 ∧
    (main argsC7 "/h" "/w" "" wRem).2.1 = wRem ∧
    ∃ l ∈ (main argsC7 "/h" "/w" "" wRem).2.2.output,
      strContains l "does not exist" = true :=
  VirtualEnvironmentSetup.C7_remove_nonexistent argsC7 "/h" "/w" "" wRem "ghost"
    (by decide) (by decide) (by decide) (by decide)

end VenvSpec

namespace VenvSpec

/-- Witness for the amended C1 at the concrete input `NO`: cancellation is
case-insensitive, deletes nothing, and exits 1. -/
theorem C1_amended_witness :
    (main argsRem "/h" "/w" "NO" wRem).1 = 1 ∧
    (main argsRem "/h" "/w" "NO" wRem).2.1 = wRem ∧
    "Deletion cancelled." ∈ (main argsRem "/h" "/w" "NO" wRem).2.2.output :=
  C1_amended argsRem "/h" "/w" "NO" wRem "proj" (by decide) (by decide)
    (by decide) (by decide) (by decide) (by decide) (by decide)

/-- C2, evaluated at the failing input: `list` on an existing base
directory with zero environments exits 0 but prints
`No virtual environments found in ...` — no line contains
`Found 0 virtual environment`, contradicting the spec and the repository's
own `test_list_empty`. -/
theorem C2_code_eval :
    dirExists wC2 "/h/venvs" = true ∧
    (main argsC2 "/h" "/w" "" wC2).1 = 0 ∧
    ((main argsC2 "/h" "/w" "" wC2).2.2.output.any
       (fun l => strContains l "Found 0 virtual environment")) = false ∧
    (main argsC2 "/h" "/w" "" wC2).2.2.output
      = ["No virtual environments found in /h/venvs"] := by
  decide

/-- Counterexample to C10 as stated: `list` with a base path that exists
but is a regular file makes `iterdir()` raise; the top-level handler turns
that into exit code 1, so `list` does not exit 0 on every input. -/
theorem C10_counterexample :
    pathExists wC10 "/w/requirements.txt" = true ∧
    (main argsC10 "/h" "/w" "" wC10).1 = 1 := by
  decide

/-- C10 (amended): `list` exits 0 whenever the base path is a directory or
absent; when absent it prints only the `does not exist` notice and
enumerates nothing. -/
theorem C10_amended (a : Args) (home cwd resp : String) (w : World)
    (hcmd : a.command = Command.list)
    (hbase : dirExists w ((a.base_dir).getD (home ++ "/virtual_environments")) = true ∨
             pathExists w ((a.base_dir).getD (home ++ "/virtual_environments")) = false) :
    (main a home cwd resp w).1 = 0 ∧
    (pathExists w ((a.base_dir).getD (home ++ "/virtual_environments")) = false →
       (main a home cwd resp w).2.2.output =
         ["Base directory " ++ (a.base_dir).getD (home ++ "/virtual_environments") ++
          " does not exist."]) := by
  rcases hbase with hdir | hmiss
  · have hpath : pathExists w ((a.base_dir).getD (home ++ "/virtual_environments"))
        = true := by
      unfold pathExists
      rw [hdir]
      simp
    constructor
    · simp only [main, hcmd]
      unfold list_environments
      rw [hpath, hdir]
      simp only [Bool.true_eq_false, if_false]
      by_cases hv : sortStrings (List.filter (looksLikeVenv w)
          (childDirs w ((a.base_dir).getD (home ++ "/virtual_environments")))) = []
      · simp [hv]
      · by_cases hd : a.detailed = false
        · simp [hv, hd]
        · simp [hv, hd]
    · intro habs
      rw [hpath] at habs
      exact absurd habs (by decide)
  · constructor
    · simp only [main, hcmd]
      unfold list_environments
      rw [hmiss]
      simp
    · intro _
      simp only [main, hcmd]
      unfold list_environments
      rw [hmiss]
      simp [Trace.lines]

/-- Witness for the amended C10: a missing base directory still exits 0
and prints exactly the `does not exist` notice. -/
theorem C10_amended_witness :
    (main argsC10m "/h" "/w" "" wC2).1 = 0 ∧
    (main argsC10m "/h" "/w" "" wC2).2.2.output
      = ["Base directory /nope does not exist."] := by
  have h := C10_amended argsC10m "/h" "/w" "" wC2 (by decide) (Or.inr (by decide))
  exact ⟨h.1, h.2 (by decide)⟩

end VenvSpec

namespace VenvSpec
namespace VirtualEnvironmentSetup

/-- C4 (amended): after a confirmed removal of environment A, the
LocationMarker is deleted exactly when its stored content, read as a path,
equals A's path, and the ActivationScript exactly when its content
contains A's path as a substring; consequently artifacts referencing a
different environment B survive UNLESS the script's content happens to
contain A's path as a substring (e.g. when A's path is a prefix of B's). -/
theorem C4_amended (s : VirtualEnvironmentSetup) (force : Bool) (resp : String)
    (w : World) (hex : pathExists w s.venv_path = true)
    (hconf : force = true ∨ pyLower resp = "y" ∨ pyLower resp = "yes") :
    (s.remove_environment force resp w).1 = true ∧
    (∀ stored, fileContent (rmtree w s.venv_path) s.venvlocation_file = some stored →
       (pathEq (pyStrip stored) s.venv_path = false →
         fileContent (s.remove_environment force resp w).2.1 s.venvlocation_file
           = some stored) ∧
       (pathEq (pyStrip stored) s.venv_path = true →
         fileExists (s.remove_environment force resp w).2.1 s.venvlocation_file
           = false)) ∧
    (∀ c, fileContent (rmtree w s.venv_path) s.venv_shell_file = some c →
       (strContains c s.venv_path = false →
         fileContent (s.remove_environment force resp w).2.1 s.venv_shell_file
           = some c) ∧
       (strContains c s.venv_path = true →
         fileExists (s.remove_environment force resp w).2.1 s.venv_shell_file
           = false)) := by
  have hsl : s.venv_shell_file ≠ s.venvlocation_file := by
    unfold venv_shell_file venvlocation_file
    exact str_append_right_inj s.cwd (by decide)
  have hls : s.venvlocation_file ≠ s.venv_shell_file := fun he => hsl he.symm
  have hnc : ¬(force = false ∧ ¬pyLower resp = "y" ∧ ¬pyLower resp = "yes") := by
    rcases hconf with h | h | h
    · rintro ⟨hf, -, -⟩
      rw [h] at hf
      cases hf
    · rintro ⟨-, h1, -⟩
      exact h1 h
    · rintro ⟨-, -, h2⟩
      exact h2 h
  unfold remove_environment
  rw [hex]
  simp only [Bool.true_eq_false, if_false, if_neg hnc]
  refine ⟨trivial, ?_, ?_⟩
  · intro stored hst
    simp only [hst]
    constructor
    · intro hpe
      simp only [hpe, Bool.false_eq_true, if_false]
      cases hsc : fileContent (rmtree w s.venv_path) s.venv_shell_file with
      | none => simpa using hst
      | some c =>
        simp only [hsc]
        by_cases hcc : strContains c s.venv_path = true
        · simp only [hcc, if_true]
          rw [fileContent_removeFile_ne _ _ _ hls]
          exact hst
        · simp only [Bool.not_eq_true] at hcc
          simp only [hcc, Bool.false_eq_true, if_false]
          exact hst
    · intro hpe
      simp only [hpe, if_true]
      cases hsc : fileContent (removeFile (rmtree w s.venv_path) s.venvlocation_file)
          s.venv_shell_file with
      | none =>
        simp only [hsc]
        exact fileExists_removeFile_self _ _
      | some c =>
        simp only [hsc]
        by_cases hcc : strContains c s.venv_path = true
        · simp only [hcc, if_true]
          rw [fileExists, fileContent_removeFile_ne _ _ _ hls,
            fileContent_removeFile_self]
          rfl
        · simp only [Bool.not_eq_true] at hcc
          simp only [hcc, Bool.false_eq_true, if_false]
          exact fileExists_removeFile_self _ _
  · intro c hc
    cases hst : fileContent (rmtree w s.venv_path) s.venvlocation_file with
    | none =>
      simp only [hst, hc]
      constructor
      · intro hcc
        simp only [hcc, Bool.false_eq_true, if_false]
        exact hc
      · intro hcc
        simp only [hcc, if_true]
        exact fileExists_removeFile_self _ _
    | some stored =>
      simp only [hst]
      by_cases hpe : pathEq (pyStrip stored) s.venv_path = true
      · simp only [hpe, if_true]
        have hc2 : fileContent (removeFile (rmtree w s.venv_path) s.venvlocation_file)
            s.venv_shell_file = some c := by
          rw [fileContent_removeFile_ne _ _ _ hsl]
          exact hc
        simp only [hc2]
        constructor
        · intro hcc
          simp only [hcc, Bool.false_eq_true, if_false]
          exact hc2
        · intro hcc
          simp only [hcc, if_true]
          exact fileExists_removeFile_self _ _
      · simp only [Bool.not_eq_true] at hpe
        simp only [hpe, Bool.false_eq_true, if_false, hc]
        constructor
        · intro hcc
          simp only [hcc, Bool.false_eq_true, if_false]
          exact hc
        · intro hcc
          simp only [hcc, if_true]
          exact fileExists_removeFile_self _ _

end VirtualEnvironmentSetup

set_option maxRecDepth 100000 in
/-- Counterexample to C4 as stated: removing `proj` deletes a `venv_shell`
whose content references only the DIFFERENT environment `proj2`, because
`/h/venvs/proj` is a substring of `/h/venvs/proj2`. -/
theorem C4_counterexample :
    pathEq sC4B.venv_path sC4.venv_path = false ∧
    fileContent wC4 sC4.venv_shell_file = some sC4B.activation_script_content ∧
    strContains sC4B.activation_script_content sC4B.venv_path = true ∧
    (sC4.remove_environment true "" wC4).1 = true ∧
    fileExists (sC4.remove_environment true "" wC4).2.1 sC4.venv_shell_file
      = false := by
  decide

set_option maxRecDepth 100000 in
/-- Witness for the amended C4: in the same scenario the LocationMarker,
whose stored path names `proj2` and differs from `proj` as a path,
survives the removal of `proj`. -/
theorem C4_amended_witness :
    fileContent (sC4.remove_environment true "" wC4).2.1 sC4.venvlocation_file
      = some (sC4B.venv_path ++ "\n") :=
  (((VirtualEnvironmentSetup.C4_amended sC4 true "" wC4 (by decide)
      (Or.inl rfl)).2.1 (sC4B.venv_path ++ "\n") (by decide)).1 (by decide))

end VenvSpec
